import Mathlib

/-!
Verification of `airflow_db_cleanup.py` (datagovsg/airflow-maintenance-dags,
db-cleanup DAG): a shallow embedding of the configuration-resolution step
(`print_configuration_function`), the per-table cleanup step
(`cleanup_function`), and the DAG-level handoff of the computed cutoff via
XCom, together with theorems settling the specification's claims about them.

Timestamps are modelled as integers (seconds); `timedelta(n)` with the single
positional argument `n` is `n` days, i.e. `n * 86400` seconds.
-/

namespace AirflowDbCleanup

/-- A JSON-ish value that can appear under `maxDBEntryAgeInDays` in
`dag_run.conf`: JSON null / Python `None`, an integer, or a string
(the representative malformed, non-numeric value). -/
inductive ConfValue where
  | null : ConfValue
  | int (n : Int) : ConfValue
  | str (s : String) : ConfValue
deriving DecidableEq

/-- `dag_run.conf`: a Python dict modelled as an association list.
The whole conf may also be `None` (the `Option` wrapper at use sites). -/
abbrev DagRunConf := List (String × ConfValue)

/-- Python exceptions that the embedded code can raise:
`TypeError` from `timedelta(...)` on a non-numeric argument, and a failure
raised by `SESSION.delete(entry)` for an individual entity. -/
inductive PyError where
  | typeError (msg : String) : PyError
  | deleteError (eid : Nat) : PyError
deriving DecidableEq

/-- Source line 36: `DEFAULT_MAX_DB_ENTRY_AGE_IN_DAYS = 30`. -/
def DEFAULT_MAX_DB_ENTRY_AGE_IN_DAYS : Int := 30

/-- One day in seconds; `timedelta(n)` denotes `n * secondsPerDay`. -/
def secondsPerDay : Int := 86400

/-- Source lines 84-87:
`max_db_entry_age_in_days = None` then, when `dag_run_conf` is truthy
(not `None` and not the empty dict),
`max_db_entry_age_in_days = dag_run_conf.get("maxDBEntryAgeInDays", None)`.
An absent key and a JSON-null value both come out as `ConfValue.null`. -/
def getMaxDbEntryAge (conf : Option DagRunConf) : ConfValue :=
  match conf with
  | none => ConfValue.null
  | some c =>
      if c.isEmpty then ConfValue.null
      else (c.lookup "maxDBEntryAgeInDays").getD ConfValue.null

/-- Source lines 89-92: `if max_db_entry_age_in_days is None:` replace it
with `DEFAULT_MAX_DB_ENTRY_AGE_IN_DAYS`; any non-`None` value is kept as-is
(no range or type validation). -/
def resolvedMaxAge (conf : Option DagRunConf) : ConfValue :=
  match getMaxDbEntryAge conf with
  | ConfValue.null => ConfValue.int DEFAULT_MAX_DB_ENTRY_AGE_IN_DAYS
  | v => v

/-- Python `timedelta(v)` where `v` is the single positional (days) argument:
an integer gives `v` days; a string or `None` raises `TypeError`. -/
def timedelta : ConfValue → Except PyError Int
  | ConfValue.int n => Except.ok (n * secondsPerDay)
  | ConfValue.str s =>
      Except.error (PyError.typeError
        ("unsupported type for timedelta days component: " ++ s))
  | ConfValue.null =>
      Except.error (PyError.typeError
        "unsupported type for timedelta days component: NoneType")

/-- Source lines 77-105 (`print_configuration_function`), reduced to its
data flow: resolve `max_db_entry_age_in_days` from the conf, compute
`max_date = datetime.now() - timedelta(max_db_entry_age_in_days)`
(line 93), and return the `max_date` that line 105 pushes to XCom.
A `TypeError` from `timedelta` propagates as a fatal task failure. -/
def print_configuration_function (conf : Option DagRunConf) (now : Int) :
    Except PyError Int :=
  match timedelta (resolvedMaxAge conf) with
  | Except.ok d => Except.ok (now - d)
  | Except.error e => Except.error e

/-- A row of one of the cleaned-up tables: an identity plus the value of its
`age_check_column`. -/
structure Entity where
  eid : Nat
  ageValue : Int
deriving DecidableEq

/-- Source lines 129-131: `SESSION.query(airflow_db_model).filter(
age_check_column <= max_date).all()` — the snapshot list of candidates,
in store order (an inclusive comparison). -/
def entriesToDelete (store : List Entity) (max_date : Int) : List Entity :=
  store.filter (fun e => e.ageValue ≤ max_date)

/-- Source lines 142-143: `for entry in entries_to_delete:
SESSION.delete(entry)`. `failsOn` is the external store's failure oracle for
an individual delete; a failing delete raises, which (there being no
try/except in the loop) stops the iteration at that entry.
Returns (entries on which a delete was issued, store afterwards,
the propagated exception if any). -/
def deleteLoop (failsOn : Entity → Bool) :
    List Entity → List Entity → List Entity × List Entity × Option PyError
  | store, [] => ([], store, none)
  | store, e :: rest =>
      if failsOn e then
        ([e], store, some (PyError.deleteError e.eid))
      else
        let r := deleteLoop failsOn (store.erase e) rest
        (e :: r.1, r.2)

/-- The observable outcome of one `cleanup_function` task run. -/
structure CleanupResult where
  /-- The `max_date` the task pulled from XCom and used. -/
  observedMaxDate : Int
  /-- `len(entries_to_delete)` as logged at line 137. -/
  matchedCount : Nat
  /-- The entries logged one by one at lines 134-136 ("what WOULD be
  deleted"), in iteration order. -/
  reported : List Entity
  /-- Entries on which `SESSION.delete` was invoked, in order. -/
  issuedDeletes : List Entity
  /-- The store contents after the run. -/
  store : List Entity
  /-- Whether the line-146 skip warning was emitted. -/
  warnedSkip : Bool
  /-- `some e` when the task aborted with an exception. -/
  error : Option PyError
deriving DecidableEq

/-- Source lines 108-148 (`cleanup_function`) for one table: one query
(lines 129-131), unconditional per-entry reporting (lines 134-136) and count
(line 137), then — source line 140 `if ENABLE_DELETE:` — either the delete
loop (lines 142-143) or the skip warning (line 146). `enable_delete` is the
module constant `ENABLE_DELETE`; `max_date` is the value pulled from XCom at
lines 113-114. -/
def cleanup_function (failsOn : Entity → Bool) (enable_delete : Bool)
    (max_date : Int) (store : List Entity) : CleanupResult :=
  let ets := entriesToDelete store max_date
  if enable_delete then
    let r := deleteLoop failsOn store ets
    { observedMaxDate := max_date
      matchedCount := ets.length
      reported := ets
      issuedDeletes := r.1
      store := r.2.1
      warnedSkip := false
      error := r.2.2 }
  else
    { observedMaxDate := max_date
      matchedCount := ets.length
      reported := ets
      issuedDeletes := []
      store := store
      warnedSkip := true
      error := none }

/-- The run-scoped XCom store: (key, value) pairs. -/
abbrev XCom := List (String × Int)

/-- Source line 105: `context["ti"].xcom_push(key="max_date", value=max_date)`. -/
def xcom_push (x : XCom) (key : String) (v : Int) : XCom := (key, v) :: x

/-- Source lines 113-114: `xcom_pull(task_ids=..., key="max_date")`;
`none` models Python's `None` when nothing was pushed under the key. -/
def xcom_pull (x : XCom) (key : String) : Option Int := x.lookup key

/-- One cleanup task as wired in the DAG: pull `max_date` from XCom, then run
`cleanup_function` with it. `none` if nothing was pushed (cannot happen in a
run, since `PRINT_CONFIGURATION_OPR.set_downstream(cleanup)` at line 165
orders the configuration task strictly first). -/
def cleanup_task (x : XCom) (failsOn : Entity → Bool) (enable_delete : Bool)
    (store : List Entity) : Option CleanupResult :=
  match xcom_pull x "max_date" with
  | none => none
  | some md => some (cleanup_function failsOn enable_delete md store)

/-- The whole DAG run (lines 151-165): the configuration task runs first and
pushes `max_date` into a fresh run-scoped XCom exactly once; then one cleanup
task per entry of `DATABASE_OBJECTS` runs, each pulling from that XCom.
`stores` holds the rows of each table, one list per `DATABASE_OBJECTS`
entry. If the configuration task raises, no cleanup task runs. -/
def runDag (conf : Option DagRunConf) (now : Int) (stores : List (List Entity))
    (failsOn : Entity → Bool) (enable_delete : Bool) :
    Except PyError (XCom × List (Option CleanupResult)) :=
  match print_configuration_function conf now with
  | Except.error e => Except.error e
  | Except.ok max_date =>
      let x := xcom_push [] "max_date" max_date
      Except.ok (x, stores.map (fun s => cleanup_task x failsOn enable_delete s))

/-! ### Helper lemmas -/

/-- When no candidate's delete fails, the delete loop issues a delete for
every candidate in order, erases each from the store, and raises nothing. -/
theorem deleteLoop_ok (failsOn : Entity → Bool) (cands : List Entity)
    (h : ∀ e ∈ cands, failsOn e = false) (store : List Entity) :
    deleteLoop failsOn store cands = (cands, cands.foldl List.erase store, none) := by
  induction cands generalizing store with
  | nil => rfl
  | cons e rest ih =>
      have he : failsOn e = false := h e (List.mem_cons_self e rest)
      have hrest : ∀ x ∈ rest, failsOn x = false :=
        fun x hx => h x (List.mem_cons_of_mem e hx)
      simp [deleteLoop, he, ih hrest]

/-- When the deletes of `pre` succeed and the delete of `e` fails, the loop
issues deletes exactly for `pre ++ [e]`, has erased only `pre` from the
store, and propagates the exception: nothing after `e` is attempted. -/
theorem deleteLoop_fail (failsOn : Entity → Bool) (pre : List Entity)
    (e : Entity) (post : List Entity)
    (hpre : ∀ x ∈ pre, failsOn x = false) (he : failsOn e = true)
    (store : List Entity) :
    deleteLoop failsOn store (pre ++ e :: post)
      = (pre ++ [e], pre.foldl List.erase store,
         some (PyError.deleteError e.eid)) := by
  induction pre generalizing store with
  | nil => simp [deleteLoop, he]
  | cons x rest ih =>
      have hx : failsOn x = false := hpre x (List.mem_cons_self x rest)
      have hrest : ∀ y ∈ rest, failsOn y = false :=
        fun y hy => hpre y (List.mem_cons_of_mem x hy)
      simp [deleteLoop, hx, ih hrest]

/-- Erasing an element that differs from the head commutes past the head. -/
theorem foldl_erase_cons_of_ne (x : Entity) (m : List Entity)
    (hm : ∀ y ∈ m, y ≠ x) (t : List Entity) :
    m.foldl List.erase (x :: t) = x :: m.foldl List.erase t := by
  induction m generalizing t with
  | nil => rfl
  | cons y rest ih =>
      have hyx : y ≠ x := hm y (List.mem_cons_self y rest)
      have hrest : ∀ z ∈ rest, z ≠ x :=
        fun z hz => hm z (List.mem_cons_of_mem y hz)
      have hxy : (x == y) = false := by
        simp only [beq_eq_false_iff_ne]
        exact fun hexy => hyx hexy.symm
      simp [List.foldl, List.erase_cons, hxy, ih hrest]

/-- Erasing, one by one, every element of `l.filter p` from `l` leaves
exactly the elements of `l` not satisfying `p`. -/
theorem foldl_erase_filter (p : Entity → Bool) (l : List Entity) :
    (l.filter p).foldl List.erase l = l.filter (fun x => !(p x)) := by
  induction l with
  | nil => rfl
  | cons x t ih =>
      by_cases hx : p x = true
      · simp [List.filter_cons, hx, List.foldl, List.erase_cons, ih]
      · have hx' : p x = false := by simpa using hx
        have hmem : ∀ y ∈ t.filter p, y ≠ x := by
          intro y hy hyx
          have : p y = true := (List.mem_filter.mp hy).2
          rw [hyx] at this
          exact hx this
        simp [List.filter_cons, hx',
          foldl_erase_cons_of_ne x (t.filter p) hmem t, ih]

/-- The two filtered halves of a list partition its length. -/
theorem length_filter_not (p : Entity → Bool) (l : List Entity) :
    (l.filter p).length + (l.filter (fun x => !(p x))).length = l.length := by
  induction l with
  | nil => rfl
  | cons x t ih =>
      by_cases h : p x = true
      · simp [List.filter_cons, h]
        omega
      · have h' : p x = false := by simpa using h
        simp [List.filter_cons, h']
        omega

/-! ### Claim theorems -/

/-- Claim C1, counterexample. The claim says an absent, malformed or
negative `maxDBEntryAgeInDays` override falls back to the default (30) and
never raises. The code refutes both parts: an override of `-1` is used
as-is (the resulting `max_date` is `now + 1 day`, not the default cutoff
`now - 30 days`), and a string override makes `timedelta` raise a fatal
`TypeError`. -/
theorem C1_counterexample :
    print_configuration_function
        (some [("maxDBEntryAgeInDays", ConfValue.int (-1))]) 0
      = Except.ok 86400 ∧
    (86400 : Int) ≠ 0 - DEFAULT_MAX_DB_ENTRY_AGE_IN_DAYS * secondsPerDay ∧
    print_configuration_function
        (some [("maxDBEntryAgeInDays", ConfValue.str "abc")]) 0
      = Except.error (PyError.typeError
          "unsupported type for timedelta days component: abc") := by
  refine ⟨rfl, by decide, rfl⟩

/-- Claim C1, amended: cutoff resolution falls back to the default
`DEFAULT_MAX_DB_ENTRY_AGE_IN_DAYS = 30` only when the override is absent
(conf missing, conf empty, key missing) or null; a present integer
override — negative included — is used as-is with no fallback and no
error; a present non-numeric (string) override raises a fatal
`TypeError`. -/
theorem C1_amended (conf : Option DagRunConf) (now : Int) :
    (getMaxDbEntryAge conf = ConfValue.null →
      print_configuration_function conf now
        = Except.ok (now - DEFAULT_MAX_DB_ENTRY_AGE_IN_DAYS * secondsPerDay)) ∧
    (∀ n : Int, getMaxDbEntryAge conf = ConfValue.int n →
      print_configuration_function conf now
        = Except.ok (now - n * secondsPerDay)) ∧
    (∀ s : String, getMaxDbEntryAge conf = ConfValue.str s →
      print_configuration_function conf now
        = Except.error (PyError.typeError
            ("unsupported type for timedelta days component: " ++ s))) := by
  refine ⟨fun h => ?_, fun n h => ?_, fun s h => ?_⟩ <;>
    simp [print_configuration_function, resolvedMaxAge, h, timedelta]

/-- Witness for `C1_amended`: an explicit JSON-null override at `now = 5`
falls back to the default. -/
theorem C1_amended_witness :
    print_configuration_function
        (some [("maxDBEntryAgeInDays", ConfValue.null)]) 5
      = Except.ok (5 - DEFAULT_MAX_DB_ENTRY_AGE_IN_DAYS * secondsPerDay) :=
  (C1_amended (some [("maxDBEntryAgeInDays", ConfValue.null)]) 5).1 rfl

/-- Claim C2: a present non-null numeric override `n` is used as-is with no
range validation: `max_date = now - n days` exactly; when `n` is negative
the cutoff lies strictly in the future of `now`, and every stored entity
whose age attribute is at most `now` (every existing row) is a deletion
candidate. -/
theorem C2_override_used_as_is (conf : Option DagRunConf) (now n : Int)
    (h : getMaxDbEntryAge conf = ConfValue.int n) :
    print_configuration_function conf now
      = Except.ok (now - n * secondsPerDay) ∧
    (n < 0 →
      now < now - n * secondsPerDay ∧
      ∀ (store : List Entity) (e : Entity), e ∈ store → e.ageValue ≤ now →
        e ∈ entriesToDelete store (now - n * secondsPerDay)) := by
  constructor
  · simp [print_configuration_function, resolvedMaxAge, h, timedelta]
  · intro hn
    have hfut : now < now - n * secondsPerDay := by
      have : n * secondsPerDay < 0 :=
        mul_neg_of_neg_of_pos hn (by norm_num [secondsPerDay])
      linarith
    refine ⟨hfut, fun store e hmem hage => ?_⟩
    have : e.ageValue ≤ now - n * secondsPerDay := le_trans hage (le_of_lt hfut)
    simp [entriesToDelete, List.mem_filter, hmem, this]

/-- Witness for `C2_override_used_as_is`: override `-2` at `now = 0` gives
cutoff `172800`, and the row aged `0` in a one-row store is a candidate. -/
theorem C2_witness :
    print_configuration_function
        (some [("maxDBEntryAgeInDays", ConfValue.int (-2))]) 0
      = Except.ok (0 - (-2) * secondsPerDay) ∧
    (0 : Int) < 0 - (-2) * secondsPerDay ∧
    (⟨1, 0⟩ : Entity) ∈ entriesToDelete [⟨1, 0⟩] (0 - (-2) * secondsPerDay) := by
  have h := C2_override_used_as_is
    (some [("maxDBEntryAgeInDays", ConfValue.int (-2))]) 0 (-2) rfl
  have h2 := h.2 (by decide)
  exact ⟨h.1, h2.1, h2.2 [⟨1, 0⟩] ⟨1, 0⟩ (List.mem_singleton.mpr rfl) le_rfl⟩

/-- Claim C3: with deletion disabled, no delete is issued, the store is
unchanged and no error is raised (so `deletedCount = 0` whatever
`matchedCount` is), every candidate is still reported exactly as it would
be with deletion enabled, and the skip warning is emitted. -/
theorem C3_dry_run (failsOn : Entity → Bool) (max_date : Int)
    (store : List Entity) :
    (cleanup_function failsOn false max_date store).issuedDeletes = [] ∧
    (cleanup_function failsOn false max_date store).store = store ∧
    (cleanup_function failsOn false max_date store).error = none ∧
    (cleanup_function failsOn false max_date store).matchedCount
      = (entriesToDelete store max_date).length ∧
    (cleanup_function failsOn false max_date store).reported
      = (cleanup_function failsOn true max_date store).reported ∧
    (cleanup_function failsOn false max_date store).warnedSkip = true := by
  simp [cleanup_function]

/-- Claim C4: with deletion enabled (and every individual delete succeeding,
the store's delete primitive being an external collaborator), a delete is
issued for every candidate, exactly the candidates are removed from the
store, and the number of removed rows equals `matchedCount`. -/
theorem C4_delete_all (failsOn : Entity → Bool) (max_date : Int)
    (store : List Entity)
    (h : ∀ e ∈ entriesToDelete store max_date, failsOn e = false) :
    (cleanup_function failsOn true max_date store).issuedDeletes
      = entriesToDelete store max_date ∧
    (cleanup_function failsOn true max_date store).error = none ∧
    (∀ e : Entity, e ∈ (cleanup_function failsOn true max_date store).store
      ↔ e ∈ store ∧ ¬ e.ageValue ≤ max_date) ∧
    store.length - (cleanup_function failsOn true max_date store).store.length
      = (cleanup_function failsOn true max_date store).matchedCount := by
  have hloop := deleteLoop_ok failsOn (entriesToDelete store max_date) h store
  have hstore : (cleanup_function failsOn true max_date store).store
      = store.filter (fun x => !(decide (x.ageValue ≤ max_date))) := by
    simp [cleanup_function, hloop]
    exact foldl_erase_filter (fun e => decide (e.ageValue ≤ max_date)) store
  refine ⟨by simp [cleanup_function, hloop], by simp [cleanup_function, hloop],
    fun e => ?_, ?_⟩
  · rw [hstore]
    simp [List.mem_filter]
  · have hm : (cleanup_function failsOn true max_date store).matchedCount
        = (store.filter (fun e => decide (e.ageValue ≤ max_date))).length := by
      simp [cleanup_function, entriesToDelete]
    rw [hstore, hm]
    have hlen := length_filter_not (fun e => decide (e.ageValue ≤ max_date)) store
    omega

/-- Witness for `C4_delete_all`: a two-row store at cutoff `10` where only
the row aged `3` matches; it is deleted and the row aged `20` remains. -/
theorem C4_witness :
    (cleanup_function (fun _ => false) true 10 [⟨1, 3⟩, ⟨2, 20⟩]).issuedDeletes
      = entriesToDelete [⟨1, 3⟩, ⟨2, 20⟩] 10 ∧
    ((⟨2, 20⟩ : Entity) ∈
        (cleanup_function (fun _ => false) true 10 [⟨1, 3⟩, ⟨2, 20⟩]).store
      ↔ (⟨2, 20⟩ : Entity) ∈ ([⟨1, 3⟩, ⟨2, 20⟩] : List Entity)
          ∧ ¬ (20 : Int) ≤ 10) := by
  have h := C4_delete_all (fun _ => false) 10 [⟨1, 3⟩, ⟨2, 20⟩]
    (fun e _ => rfl)
  exact ⟨h.1, h.2.2.1 ⟨2, 20⟩⟩

/-- Claim C5: the candidate set is exactly the stored entities whose age
attribute is ≤ the cutoff (inclusive); with override `0` the cutoff equals
`now`, and a row timestamped exactly `now` is a candidate. -/
theorem C5_candidate_set (conf : Option DagRunConf) (now : Int)
    (h : getMaxDbEntryAge conf = ConfValue.int 0) (store : List Entity) :
    print_configuration_function conf now = Except.ok now ∧
    (∀ e : Entity, e ∈ entriesToDelete store now
      ↔ e ∈ store ∧ e.ageValue ≤ now) ∧
    (∀ e ∈ store, e.ageValue = now → e ∈ entriesToDelete store now) := by
  refine ⟨?_, fun e => ?_, fun e hmem hage => ?_⟩
  · simp [print_configuration_function, resolvedMaxAge, h, timedelta]
  · simp [entriesToDelete, List.mem_filter]
  · simp [entriesToDelete, List.mem_filter, hmem, le_of_eq hage]

/-- Witness for `C5_candidate_set`: with override `0` at `now = 100`, the
cutoff is `100` and the row aged exactly `100` is a candidate. -/
theorem C5_witness :
    print_configuration_function
        (some [("maxDBEntryAgeInDays", ConfValue.int 0)]) 100
      = Except.ok 100 ∧
    (⟨7, 100⟩ : Entity) ∈ entriesToDelete [⟨7, 100⟩] 100 := by
  have h := C5_candidate_set
    (some [("maxDBEntryAgeInDays", ConfValue.int 0)]) 100 rfl [⟨7, 100⟩]
  exact ⟨h.1, h.2.2 ⟨7, 100⟩ (List.mem_singleton.mpr rfl) rfl⟩

/-- Claim C6: for every resolved non-negative `maxAgeDays` value, the
cutoff is exactly `now - maxAgeDays` whole days, and the cutoff is antitone
in `maxAgeDays`: a larger value yields an earlier or equal cutoff. -/
theorem C6_cutoff_exact_antitone (conf conf2 : Option DagRunConf)
    (now n m : Int)
    (h : resolvedMaxAge conf = ConfValue.int n)
    (h2 : resolvedMaxAge conf2 = ConfValue.int m)
    (_hn : 0 ≤ n) (hnm : n ≤ m) :
    print_configuration_function conf now
      = Except.ok (now - n * secondsPerDay) ∧
    print_configuration_function conf2 now
      = Except.ok (now - m * secondsPerDay) ∧
    now - m * secondsPerDay ≤ now - n * secondsPerDay := by
  refine ⟨by simp [print_configuration_function, h, timedelta],
    by simp [print_configuration_function, h2, timedelta], ?_⟩
  have : n * secondsPerDay ≤ m * secondsPerDay :=
    mul_le_mul_of_nonneg_right hnm (by norm_num [secondsPerDay])
  linarith

/-- Witness for `C6_cutoff_exact_antitone`: overrides `1` and `30` (the
latter via the absent-conf default) at `now = 0`; the day-30 cutoff is
earlier. -/
theorem C6_witness :
    print_configuration_function
        (some [("maxDBEntryAgeInDays", ConfValue.int 1)]) 0
      = Except.ok (0 - 1 * secondsPerDay) ∧
    print_configuration_function none 0
      = Except.ok (0 - 30 * secondsPerDay) ∧
    (0 : Int) - 30 * secondsPerDay ≤ 0 - 1 * secondsPerDay :=
  C6_cutoff_exact_antitone
    (some [("maxDBEntryAgeInDays", ConfValue.int 1)]) none 0 1 30
    rfl rfl (by decide) (by decide)

/-- Whatever the delete flag, a cleanup task uses exactly the `max_date` it
was handed (the value pulled from XCom). -/
theorem cleanup_observes_max_date (failsOn : Entity → Bool)
    (enable_delete : Bool) (max_date : Int) (store : List Entity) :
    (cleanup_function failsOn enable_delete max_date store).observedMaxDate
      = max_date := by
  cases enable_delete <;> simp [cleanup_function]

/-- Claim C7: in a run, the cutoff is computed once by the configuration
task and pushed once into the run-scoped XCom (the XCom holds exactly that
one entry) before any cleanup task runs; every cleanup task pulls that same
value, runs with it as its observed cutoff, and none recomputes its own —
so all units of one run observe one identical cutoff. -/
theorem C7_one_run_one_cutoff (conf : Option DagRunConf) (now : Int)
    (stores : List (List Entity)) (failsOn : Entity → Bool)
    (enable_delete : Bool) (x : XCom) (results : List (Option CleanupResult))
    (max_date : Int)
    (hmd : print_configuration_function conf now = Except.ok max_date)
    (hrun : runDag conf now stores failsOn enable_delete
      = Except.ok (x, results)) :
    x = [("max_date", max_date)] ∧
    xcom_pull x "max_date" = some max_date ∧
    results = stores.map (fun s =>
      some (cleanup_function failsOn enable_delete max_date s)) ∧
    (∀ r ∈ results, ∃ cr, r = some cr ∧ cr.observedMaxDate = max_date) := by
  simp only [runDag, hmd, xcom_push, Except.ok.injEq, Prod.mk.injEq] at hrun
  obtain ⟨hx, hres⟩ := hrun
  subst hx
  subst hres
  have hpull : xcom_pull [("max_date", max_date)] "max_date" = some max_date := rfl
  have htask : ∀ s : List Entity,
      cleanup_task [("max_date", max_date)] failsOn enable_delete s
        = some (cleanup_function failsOn enable_delete max_date s) := by
    intro s
    simp [cleanup_task, hpull]
  refine ⟨rfl, rfl, List.map_congr_left (fun s _ => htask s), ?_⟩
  intro r hr
  obtain ⟨s, _, hs⟩ := List.mem_map.mp hr
  exact ⟨cleanup_function failsOn enable_delete max_date s,
    by rw [← hs, htask s], cleanup_observes_max_date _ _ _ _⟩

/-- Witness for `C7_one_run_one_cutoff`: a run over two empty tables with no
conf; the default cutoff `0 - 30 days` is pushed once and read by both. -/
theorem C7_witness :
    [("max_date", (0 : Int) - 30 * 86400)]
      = [("max_date", (0 : Int) - 30 * 86400)] ∧
    xcom_pull [("max_date", (0 : Int) - 30 * 86400)] "max_date"
      = some (0 - 30 * 86400) ∧
    ([some (cleanup_function (fun _ => false) true (0 - 30 * 86400) []),
      some (cleanup_function (fun _ => false) true (0 - 30 * 86400) [])]
      = ([[], []] : List (List Entity)).map (fun s =>
          some (cleanup_function (fun _ => false) true (0 - 30 * 86400) s))) ∧
    (∀ r ∈ [some (cleanup_function (fun _ => false) true (0 - 30 * 86400) []),
            some (cleanup_function (fun _ => false) true (0 - 30 * 86400) [])],
      ∃ cr, r = some cr ∧ cr.observedMaxDate = 0 - 30 * 86400) :=
  C7_one_run_one_cutoff none 0 [[], []] (fun _ => false) true
    [("max_date", 0 - 30 * 86400)]
    [some (cleanup_function (fun _ => false) true (0 - 30 * 86400) []),
     some (cleanup_function (fun _ => false) true (0 - 30 * 86400) [])]
    (0 - 30 * 86400) rfl rfl

/-- Claim C8, counterexample. The claim says a failing delete is captured
and the remaining deletions are still attempted. In the code the loop
`for entry in entries_to_delete: SESSION.delete(entry)` has no try/except:
with two candidates and the first delete failing, no delete is issued for
the second candidate and the exception propagates out of the task. -/
theorem C8_counterexample :
    entriesToDelete [⟨1, 0⟩, ⟨2, 0⟩] 10 = [⟨1, 0⟩, ⟨2, 0⟩] ∧
    (cleanup_function (fun e => e.eid == 1) true 10
        [⟨1, 0⟩, ⟨2, 0⟩]).issuedDeletes = [⟨1, 0⟩] ∧
    (⟨2, 0⟩ : Entity) ∉ (cleanup_function (fun e => e.eid == 1) true 10
        [⟨1, 0⟩, ⟨2, 0⟩]).issuedDeletes ∧
    (cleanup_function (fun e => e.eid == 1) true 10 [⟨1, 0⟩, ⟨2, 0⟩]).error
      = some (PyError.deleteError 1) := by
  decide

/-- Claim C8, amended: a failure deleting one entity is NOT captured
per-entity; the exception aborts the delete loop at the failing candidate —
deletes are issued exactly for the preceding candidates plus the failing
one, candidates after it are never attempted — and the exception propagates
as the unit's failure. -/
theorem C8_amended (failsOn : Entity → Bool) (max_date : Int)
    (store pre post : List Entity) (e : Entity)
    (hc : entriesToDelete store max_date = pre ++ e :: post)
    (hpre : ∀ x ∈ pre, failsOn x = false) (he : failsOn e = true) :
    (cleanup_function failsOn true max_date store).issuedDeletes
      = pre ++ [e] ∧
    (cleanup_function failsOn true max_date store).error
      = some (PyError.deleteError e.eid) := by
  have hloop := deleteLoop_fail failsOn pre e post hpre he store
  constructor <;> simp [cleanup_function, hc, hloop]

/-- Witness for `C8_amended`: cutoff `10`, store `[⟨1,0⟩, ⟨2,0⟩]`, the
delete of entity 1 fails; only entity 1 gets a delete issued. -/
theorem C8_amended_witness :
    (cleanup_function (fun e => e.eid == 1) true 10
        [⟨1, 0⟩, ⟨2, 0⟩]).issuedDeletes = [] ++ [⟨1, 0⟩] ∧
    (cleanup_function (fun e => e.eid == 1) true 10 [⟨1, 0⟩, ⟨2, 0⟩]).error
      = some (PyError.deleteError (Entity.mk 1 0).eid) :=
  C8_amended (fun e => e.eid == 1) 10 [⟨1, 0⟩, ⟨2, 0⟩] [] [⟨2, 0⟩] ⟨1, 0⟩
    (by decide) (by simp) rfl

/-- Claim C9: after a delete-enabled run in which every delete succeeded,
re-running the unit with the same cutoff on the resulting store matches
nothing — `matchedCount = 0` on the second run. -/
theorem C9_idempotent (failsOn : Entity → Bool) (max_date : Int)
    (store : List Entity)
    (h : ∀ e ∈ entriesToDelete store max_date, failsOn e = false) :
    (cleanup_function failsOn true max_date store).error = none ∧
    (cleanup_function failsOn true max_date
        (cleanup_function failsOn true max_date store).store).matchedCount
      = 0 := by
  have hloop := deleteLoop_ok failsOn (entriesToDelete store max_date) h store
  have hstore : (cleanup_function failsOn true max_date store).store
      = store.filter (fun x => !(decide (x.ageValue ≤ max_date))) := by
    simp [cleanup_function, hloop]
    exact foldl_erase_filter (fun e => decide (e.ageValue ≤ max_date)) store
  refine ⟨by simp [cleanup_function, hloop], ?_⟩
  rw [hstore]
  have hempty : entriesToDelete
      (store.filter (fun x => !(decide (x.ageValue ≤ max_date)))) max_date
      = [] := by
    simp [entriesToDelete, List.filter_filter]
  simp [cleanup_function, hempty, deleteLoop]

/-- Witness for `C9_idempotent`: one matching row at cutoff `10`; the first
run deletes it and the second run matches nothing. -/
theorem C9_witness :
    (cleanup_function (fun _ => false) true 10 [⟨1, 3⟩, ⟨2, 20⟩]).error
      = none ∧
    (cleanup_function (fun _ => false) true 10
        (cleanup_function (fun _ => false) true 10
          [⟨1, 3⟩, ⟨2, 20⟩]).store).matchedCount = 0 :=
  C9_idempotent (fun _ => false) 10 [⟨1, 3⟩, ⟨2, 20⟩] (fun _ _ => rfl)

/-- Claim C10: one query produces the snapshot list; reporting iterates
exactly it, and (deletion enabled, deletes succeeding) the deletes are
issued for exactly the reported entries in the same order, with
`matchedCount` the length of that single query result; with deletion
disabled the reported list is the same query result. -/
theorem C10_single_snapshot (failsOn : Entity → Bool) (max_date : Int)
    (store : List Entity)
    (h : ∀ e ∈ entriesToDelete store max_date, failsOn e = false) :
    (cleanup_function failsOn true max_date store).reported
      = entriesToDelete store max_date ∧
    (cleanup_function failsOn true max_date store).issuedDeletes
      = (cleanup_function failsOn true max_date store).reported ∧
    (cleanup_function failsOn true max_date store).matchedCount
      = (cleanup_function failsOn true max_date store).reported.length ∧
    (cleanup_function failsOn false max_date store).reported
      = entriesToDelete store max_date := by
  have hloop := deleteLoop_ok failsOn (entriesToDelete store max_date) h store
  exact ⟨by simp [cleanup_function], by simp [cleanup_function, hloop],
    by simp [cleanup_function], by simp [cleanup_function]⟩

/-- Witness for `C10_single_snapshot`: two rows, one matching, cutoff
`10`. -/
theorem C10_witness :
    (cleanup_function (fun _ => false) true 10 [⟨1, 3⟩, ⟨2, 20⟩]).reported
      = entriesToDelete [⟨1, 3⟩, ⟨2, 20⟩] 10 ∧
    (cleanup_function (fun _ => false) true 10
        [⟨1, 3⟩, ⟨2, 20⟩]).issuedDeletes
      = (cleanup_function (fun _ => false) true 10 [⟨1, 3⟩, ⟨2, 20⟩]).reported ∧
    (cleanup_function (fun _ => false) true 10 [⟨1, 3⟩, ⟨2, 20⟩]).matchedCount
      = (cleanup_function (fun _ => false) true 10
          [⟨1, 3⟩, ⟨2, 20⟩]).reported.length ∧
    (cleanup_function (fun _ => false) false 10 [⟨1, 3⟩, ⟨2, 20⟩]).reported
      = entriesToDelete [⟨1, 3⟩, ⟨2, 20⟩] 10 :=
  C10_single_snapshot (fun _ => false) 10 [⟨1, 3⟩, ⟨2, 20⟩] (fun _ _ => rfl)

end AirflowDbCleanup
